import Mathlib

/-!
Verification development for `voicevox_engine/library_manager.py`
(`LibraryManager`): installation, listing and uninstallation of voice
library packages on a managed directory tree.

The filesystem below the library root is embedded as an association list
from package uuid to directory contents, a directory being an association
list from relative path to file content.  External collaborators are
embedded by their observable behaviour:

* the `semver.version.Version` class (parsing and comparison of semantic
  versions, used for `supported_vvlib_version`, `version` and
  `manifest_version`) is reproduced from the published behaviour of the
  python `semver` package, including prerelease ordering;
* the `zipfile` module is abstracted into an `ArchiveFile` record carrying
  the outcomes of `is_zipfile`, `testzip` and the entry list;
* the catalog (`downloadable_libraries`, an external data source per the
  design) is passed to `install_library` as an explicit descriptor list.
-/

set_option autoImplicit false

namespace LibraryManagerModel

/-! ## Association lists (embedding of directories and directory trees) -/

/-- First-match lookup in an association list (filesystem name lookup). -/
def alGet {α : Type} (k : String) : List (String × α) → Option α
  | [] => none
  | (k', v) :: t => if k' = k then some v else alGet k t

/-- Write-through update: replaces the first binding of `k`, appending a new
binding when `k` is absent.  This is the overwrite semantics of writing a
file (or creating a directory) at a fixed path. -/
def alSet {α : Type} (k : String) (v : α) : List (String × α) → List (String × α)
  | [] => [(k, v)]
  | (k', v') :: t => if k' = k then (k, v) :: t else (k', v') :: alSet k v t

/-- Remove every binding of `k` (deletion of a directory tree). -/
def alRemove {α : Type} (k : String) (l : List (String × α)) : List (String × α) :=
  l.filter (fun p => p.1 ≠ k)

/-- The keys of an association list, in order. -/
def alKeys {α : Type} (l : List (String × α)) : List String :=
  l.map (·.1)

/-! ## Semantic versions, after `semver.version.Version`

`Version.parse` accepts exactly the strings matched by the semver regular
expression `major.minor.patch[-prerelease][+build]`, and comparison follows
the package's `compare`: the `(major, minor, patch)` triple first, then
prerelease (a release outranks any of its prereleases), build ignored. -/

/-- A parsed semantic version.  `prerelease` and `build` keep the raw text
of their sections, as the python class does. -/
structure Version where
  major : Nat
  minor : Nat
  patch : Nat
  prerelease : Option String
  build : Option String
  deriving DecidableEq

/-- Decimal digit. -/
def isDigitC (c : Char) : Bool := '0' ≤ c && c ≤ '9'

/-- Character allowed in prerelease/build identifiers: `[0-9A-Za-z-]`. -/
def isIdentC (c : Char) : Bool :=
  isDigitC c || ('a' ≤ c && c ≤ 'z') || ('A' ≤ c && c ≤ 'Z') || c = '-'

/-- Numeric identifier `0 | [1-9][0-9]*` (no leading zero). -/
def numIdOk (l : List Char) : Bool :=
  match l with
  | [] => false
  | c :: rest => isDigitC c && (rest.isEmpty || c ≠ '0') && rest.all isDigitC

/-- Prerelease identifier: numeric without leading zero, or any nonempty
identifier string containing a non-digit. -/
def preIdOk (l : List Char) : Bool :=
  if l.all isDigitC then numIdOk l else !l.isEmpty && l.all isIdentC

/-- Build identifier: nonempty string of identifier characters. -/
def buildIdOk (l : List Char) : Bool :=
  !l.isEmpty && l.all isIdentC

/-- Split at the first occurrence of `c`: the part before it, and, when `c`
occurs, the part after it. -/
def splitFirst (c : Char) : List Char → List Char × Option (List Char)
  | [] => ([], none)
  | x :: xs =>
    if x = c then ([], some xs)
    else
      let (a, b) := splitFirst c xs
      (x :: a, b)

/-- Split on every occurrence of `sep` (`"a.b".split "."`-style; the empty
list yields one empty part). -/
def splitAll (sep : Char) (l : List Char) : List (List Char) :=
  l.foldr
    (fun c acc =>
      if c = sep then [] :: acc
      else
        match acc with
        | [] => [[c]]
        | a :: rest => (c :: a) :: rest)
    [[]]

/-- Numeric value of a digit string. -/
def digitsVal (l : List Char) : Nat :=
  l.foldl (fun n c => n * 10 + (c.toNat - '0'.toNat)) 0

/-- `Version.parse`: accepts exactly the strings of the semver grammar.
The python method raises `ValueError` on other strings; here that is
`none`. -/
def Version.parse (s : String) : Option Version :=
  let (preBuild, build?) := splitFirst '+' s.data
  let (core, pre?) := splitFirst '-' preBuild
  match splitAll '.' core with
  | [ma, mi, pa] =>
    if numIdOk ma && numIdOk mi && numIdOk pa then
      let preOk := match pre? with
        | none => true
        | some p => (splitAll '.' p).all preIdOk
      let bOk := match build? with
        | none => true
        | some b => (splitAll '.' b).all buildIdOk
      if preOk && bOk then
        some ⟨digitsVal ma, digitsVal mi, digitsVal pa,
          pre?.map (fun p => String.mk p), build?.map (fun b => String.mk b)⟩
      else none
    else none
  | _ => none

/-- `Version.is_valid`: `parse` succeeds (the python method wraps `parse`
in `try/except`). -/
def Version.is_valid (s : String) : Bool :=
  (Version.parse s).isSome

/-- Three-way comparison of naturals, as python `(a > b) - (a < b)`. -/
def cmpNat (a b : Nat) : Int :=
  if a < b then -1 else if b < a then 1 else 0

/-- Lexicographic three-way comparison of code-point lists (python string
ordering). -/
def strLtC : List Char → List Char → Bool
  | [], [] => false
  | [], _ :: _ => true
  | _ :: _, [] => false
  | a :: as, b :: bs => if a < b then true else if b < a then false else strLtC as bs

/-- Three-way comparison of identifier strings (as python `_cmp` on `str`). -/
def cmpStrC (a b : List Char) : Int :=
  if strLtC a b then -1 else if strLtC b a then 1 else 0

/-- One prerelease identifier against another, after `_nat_cmp`'s
`cmp_prerelease_tag`: two numeric identifiers compare numerically, a
numeric identifier is below an alphanumeric one, otherwise string order. -/
def cmpTag (x y : List Char) : Int :=
  if !x.isEmpty && x.all isDigitC then
    if !y.isEmpty && y.all isDigitC then cmpNat (digitsVal x) (digitsVal y) else -1
  else if !y.isEmpty && y.all isDigitC then 1
  else cmpStrC x y

/-- Pairwise comparison of identifier lists, with fallback `fb` when the
zipped prefix ties (python `_nat_cmp`'s loop plus its final
`_cmp(len(a), len(b))`). -/
def cmpTagLists (fb : Int) : List (List Char) → List (List Char) → Int
  | x :: xs, y :: ys =>
    let c := cmpTag x y
    if c ≠ 0 then c else cmpTagLists fb xs ys
  | _, _ => fb

/-- `_nat_cmp` on two prerelease strings. -/
def natCmp (a b : String) : Int :=
  cmpTagLists (cmpNat a.data.length b.data.length)
    (splitAll '.' a.data) (splitAll '.' b.data)

/-- `Version.compare`: `(major, minor, patch)` lexicographically; on a tie
a version with a prerelease is below the bare release, and two prereleases
compare by `_nat_cmp`.  Build metadata is ignored. -/
def Version.compare (v w : Version) : Int :=
  let c := cmpNat v.major w.major
  if c ≠ 0 then c
  else
    let c := cmpNat v.minor w.minor
    if c ≠ 0 then c
    else
      let c := cmpNat v.patch w.patch
      if c ≠ 0 then c
      else
        match v.prerelease, w.prerelease with
        | none, none => 0
        | none, some _ => 1
        | some _, none => -1
        | some a, some b => natCmp a b

/-! ## Data model -/

/-- Modelled from the spec: a `DownloadableLibraryInfo` descriptor from
`voicevox_engine.model` (module not in the sources).  `install_library`
uses only its `uuid` for the catalog lookup and dumps its whole field
dictionary into `metas.json`; the remaining display fields are therefore
kept opaque in `payload`. -/
structure DownloadableLibraryInfo where
  uuid : String
  payload : String
  deriving DecidableEq

/-- Modelled from the spec: `InstalledLibraryInfo` from
`voicevox_engine.model` (module not in the sources) — the descriptor
fields read back from `metas.json` plus the `uninstallable` flag. -/
structure InstalledLibraryInfo where
  info : DownloadableLibraryInfo
  uninstallable : Bool
  deriving DecidableEq

/-- Modelled from the spec: a decoded `vvlib_manifest.json` document as far
as `install_library` inspects it.  `schema_ok` abstracts the
`VvlibManifest.validate` pydantic check from `voicevox_engine.model`
(module not in the sources; the spec: malformed document or missing
required fields fail schema validation); the three named fields are the
ones the installer reads afterwards, meaningful when `schema_ok`. -/
structure ManifestJson where
  schema_ok : Bool
  version : String
  manifest_version : String
  engine_uuid : String
  deriving DecidableEq

/-- Content of one archive entry: either bytes that fail UTF-8 decoding or
JSON parsing (`tag` only distinguishes concrete instances), or bytes that
parse as a manifest-shaped JSON document. -/
inductive EntryData where
  | undecodable (tag : String)
  | json (m : ManifestJson)
  deriving DecidableEq

/-- One entry of a zip archive. -/
structure ZipEntry where
  name : String
  data : EntryData
  deriving DecidableEq

/-- The uploaded file, abstracting the `zipfile` module: `is_zipfile` is
the structural check `zipfile.is_zipfile(file)`, `testzip` is the name of
the first entry failing the CRC self-test (`ZipFile.testzip`, `none` when
all pass), and `entries` the archive entries in order. -/
structure ArchiveFile where
  is_zipfile : Bool
  testzip : Option String
  entries : List ZipEntry
  deriving DecidableEq

/-- Content of a file inside a package directory: the `metas.json`
document written by install step 3 (`json.dump` of the descriptor), or raw
bytes extracted from an archive entry. -/
inductive FileContent where
  | metaJson (d : DownloadableLibraryInfo)
  | entry (e : EntryData)
  deriving DecidableEq

/-- A package directory: relative path to file content. -/
abbrev Dir : Type := List (String × FileContent)

/-- The library root: package uuid to directory contents.  This is the
state owned by `LibraryManager`. -/
abbrev LibState : Type := List (String × Dir)

/-- An aborted call: an `HTTPException(status_code, detail)` raised by the
manager, or an uncaught filesystem/decoding error when reading the
`metas.json` of the named package directory (the `open`/`json.load` in
`installed_libraries` is not wrapped in any handler). -/
inductive Failure where
  | httpError (status_code : Nat) (detail : String)
  | readFailure (library_uuid : String)
  deriving DecidableEq

/-- `INFO_FILE = "metas.json"`. -/
def INFO_FILE : String := "metas.json"

/-- Fixed manifest path inside the archive. -/
def MANIFEST_FILE : String := "vvlib_manifest.json"

/-! Detail strings of the raised `HTTPException`s, verbatim from the
source's f-strings. -/

def msgNotFound (library_id : String) : String :=
  "指定された音声ライブラリ " ++ library_id ++ " が見つかりません。"

def msgBadFile (library_id : String) : String :=
  "音声ライブラリ " ++ library_id ++ " は不正なファイルです。"

def msgNoManifest (library_id : String) : String :=
  "指定された音声ライブラリ " ++ library_id ++ " にvvlib_manifest.jsonが存在しません。"

def msgManifestUnreadable (library_id : String) : String :=
  "指定された音声ライブラリ " ++ library_id ++ " のvvlib_manifest.jsonは不正です。"

def msgManifestBadData (library_id : String) : String :=
  "指定された音声ライブラリ " ++ library_id ++ " のvvlib_manifest.jsonに不正なデータが含まれています。"

def msgBadVersion (library_id : String) : String :=
  "指定された音声ライブラリ " ++ library_id ++ " のversionが不正です。"

def msgBadManifestVersion (library_id : String) : String :=
  "指定された音声ライブラリ " ++ library_id ++ " のmanifest_versionが不正です。"

def msgUnsupported (library_id : String) : String :=
  "指定された音声ライブラリ " ++ library_id ++ " は未対応です。"

def msgEngineMismatch (library_id engine_name : String) : String :=
  "指定された音声ライブラリ " ++ library_id ++ " は" ++ engine_name ++ "向けではありません。"

def msgNotInstalled (library_id : String) : String :=
  "指定された音声ライブラリ " ++ library_id ++ " はインストールされていません。"

def msgNotRemovable (library_id : String) : String :=
  "指定された音声ライブラリ " ++ library_id ++ " はアンインストールできません。"

def msgDeleteFailed (library_id : String) : String :=
  "指定された音声ライブラリ " ++ library_id ++ " の削除に失敗しました。"

/-! ## The manager -/

/-- The configuration fields of `LibraryManager` (the root directory's
contents are the explicit `LibState`; `library_root_dir.mkdir(exist_ok)` in
`__init__` is the existence of that state). -/
structure LibraryManager where
  supported_vvlib_version : Version
  engine_brand_name : String
  engine_name : String
  engine_uuid : String
  deriving DecidableEq

/-- `LibraryManager.__init__`: a missing `supported_vvlib_version` is
treated as `0.0.0`; a present but unparsable one raises `ValueError`
(`none` here). -/
def mkLibraryManager (supported_vvlib_version : Option String)
    (brand_name engine_name engine_uuid : String) : Option LibraryManager :=
  match supported_vvlib_version with
  | none => some ⟨⟨0, 0, 0, none, none⟩, brand_name, engine_name, engine_uuid⟩
  | some s => (Version.parse s).map (fun v => ⟨v, brand_name, engine_name, engine_uuid⟩)

/-- `ZipFile.read name`: the entry stored under `name`; with duplicate
names the archive directory keeps the last one. -/
def lastEntryNamed (name : String) : List ZipEntry → Option EntryData
  | [] => none
  | e :: rest =>
    match lastEntryNamed name rest with
    | some d => some d
    | none => if e.name = name then some e.data else none

/-- `ZipFile.extractall(library_dir)`: write every entry into the
directory in order, overwriting existing files at the same paths. -/
def writeEntries (d : Dir) : List ZipEntry → Dir
  | [] => d
  | e :: rest => writeEntries (alSet e.name (.entry e.data) d) rest

/-- Content of file `path` inside package `uuid`, when both exist. -/
def stateGet (s : LibState) (uuid path : String) : Option FileContent :=
  (alGet uuid s).bind (alGet path)

/-- `installed_libraries`' scan loop: iterate the subdirectories of the
root in order; a directory whose `metas.json` cannot be read as a metadata
document raises (`Except.error` names that directory), otherwise its
descriptor joins the result with `uninstallable=True`. -/
def installedScan (acc : List (String × InstalledLibraryInfo)) :
    LibState → Except String (List (String × InstalledLibraryInfo))
  | [] => .ok acc
  | (uuid, d) :: rest =>
    match alGet INFO_FILE d with
    | some (.metaJson info) => installedScan (alSet uuid ⟨info, true⟩ acc) rest
    | _ => .error uuid

/-- `LibraryManager.installed_libraries`. -/
def installed_libraries (s : LibState) :
    Except String (List (String × InstalledLibraryInfo)) :=
  installedScan [] s

/-- Lines 142–206 of `install_library`: the zip-structure check, the CRC
self-test, presence and decodability of `vvlib_manifest.json`, the
`VvlibManifest` schema check, `Version.is_valid` on `version`,
`Version.parse` on `manifest_version`, the `manifest_version >
supported_vvlib_version` gate, and the `engine_uuid` equality check, each
raising 422 with its detail string.  No state is touched here. -/
def validate_vvlib (mgr : LibraryManager) (library_id : String)
    (file : ArchiveFile) : Except Failure ManifestJson :=
  if !file.is_zipfile then
    .error (.httpError 422 (msgBadFile library_id))
  else if file.testzip.isSome then
    .error (.httpError 422 (msgBadFile library_id))
  else
    match lastEntryNamed MANIFEST_FILE file.entries with
    | none => .error (.httpError 422 (msgNoManifest library_id))
    | some (.undecodable _) => .error (.httpError 422 (msgManifestUnreadable library_id))
    | some (.json vvlib_manifest) =>
      if !vvlib_manifest.schema_ok then
        .error (.httpError 422 (msgManifestBadData library_id))
      else if !(Version.is_valid vvlib_manifest.version) then
        .error (.httpError 422 (msgBadVersion library_id))
      else
        match Version.parse vvlib_manifest.manifest_version with
        | none => .error (.httpError 422 (msgBadManifestVersion library_id))
        | some vvlib_manifest_version =>
          if 0 < Version.compare vvlib_manifest_version mgr.supported_vvlib_version then
            .error (.httpError 422 (msgUnsupported library_id))
          else if vvlib_manifest.engine_uuid ≠ mgr.engine_uuid then
            .error (.httpError 422 (msgEngineMismatch library_id mgr.engine_name))
          else .ok vvlib_manifest

/-- `LibraryManager.install_library`.  The catalog lookup (`for … else`
over `downloadable_libraries()`) raises 404 before any filesystem write;
then `library_dir.mkdir(exist_ok=True)` and the `metas.json` dump happen,
then every archive/manifest validation, and only on full success
`extractall`.  Returns the library directory path (identified by its
uuid) and the resulting state. -/
def install_library (mgr : LibraryManager) (catalog : List DownloadableLibraryInfo)
    (s : LibState) (library_id : String) (file : ArchiveFile) :
    Except Failure String × LibState :=
  match catalog.find? (fun d => d.uuid = library_id) with
  | none => (.error (.httpError 404 (msgNotFound library_id)), s)
  | some library_info =>
    let d0 : Dir := (alGet library_id s).getD []
    let d1 : Dir := alSet INFO_FILE (.metaJson library_info) d0
    let s2 : LibState := alSet library_id d1 s
    match validate_vvlib mgr library_id file with
    | .error e => (.error e, s2)
    | .ok _ => (.ok library_id, alSet library_id (writeEntries d1 file.entries) s2)

/-- Lines 221–240 of `uninstall_library`, after the registry listing has
been obtained: absent uuid → 404; `uninstallable=False` → 403; otherwise
`shutil.rmtree` of the package directory, any failure of which (here: the
directory not existing) → 500. -/
def uninstall_given (s : LibState) (library_id : String)
    (installed : List (String × InstalledLibraryInfo)) :
    Except Failure Unit × LibState :=
  match alGet library_id installed with
  | none => (.error (.httpError 404 (msgNotInstalled library_id)), s)
  | some entry =>
    if !entry.uninstallable then
      (.error (.httpError 403 (msgNotRemovable library_id)), s)
    else if (alGet library_id s).isSome then
      (.ok (), alRemove library_id s)
    else
      (.error (.httpError 500 (msgDeleteFailed library_id)), s)

/-- `LibraryManager.uninstall_library`: take the registry listing (whose
own read failure propagates uncaught), then `uninstall_given`. -/
def uninstall_library (s : LibState) (library_id : String) :
    Except Failure Unit × LibState :=
  match installed_libraries s with
  | .error u => (.error (.readFailure u), s)
  | .ok installed => uninstall_given s library_id installed

/-! ## Lemmas about the association-list filesystem -/

@[simp] theorem alKeys_nil {α : Type} : alKeys ([] : List (String × α)) = [] := rfl

@[simp] theorem alKeys_cons {α : Type} (k : String) (v : α) (t : List (String × α)) :
    alKeys ((k, v) :: t) = k :: alKeys t := rfl

theorem alGet_nil {α : Type} (k : String) : alGet k ([] : List (String × α)) = none := rfl

theorem alGet_cons {α : Type} (k k' : String) (v : α) (t : List (String × α)) :
    alGet k ((k', v) :: t) = if k' = k then some v else alGet k t := rfl

theorem alSet_nil {α : Type} (k : String) (v : α) : alSet k v ([] : List (String × α)) = [(k, v)] := rfl

theorem alSet_cons {α : Type} (k k' : String) (v v' : α) (t : List (String × α)) :
    alSet k v ((k', v') :: t) = if k' = k then (k, v) :: t else (k', v') :: alSet k v t := rfl

theorem alGet_alSet_self {α : Type} (k : String) (v : α) :
    ∀ l : List (String × α), alGet k (alSet k v l) = some v
  | [] => by rw [alSet_nil, alGet_cons, if_pos rfl]
  | (k', v') :: t => by
    by_cases h : k' = k
    · rw [alSet_cons, if_pos h, alGet_cons, if_pos rfl]
    · rw [alSet_cons, if_neg h, alGet_cons, if_neg h]
      exact alGet_alSet_self k v t

theorem alGet_alSet_ne {α : Type} (k k' : String) (v : α) (h : k' ≠ k) :
    ∀ l : List (String × α), alGet k' (alSet k v l) = alGet k' l
  | [] => by
    rw [alSet_nil, alGet_cons, if_neg (fun hh => h hh.symm)]
  | (k₀, v₀) :: t => by
    by_cases h₀ : k₀ = k
    · rw [alSet_cons, if_pos h₀, alGet_cons, if_neg (fun hh => h hh.symm),
        alGet_cons, if_neg (fun hh => h (h₀ ▸ hh).symm)]
    · rw [alSet_cons, if_neg h₀, alGet_cons, alGet_cons]
      by_cases h₁ : k₀ = k'
      · rw [if_pos h₁, if_pos h₁]
      · rw [if_neg h₁, if_neg h₁]
        exact alGet_alSet_ne k k' v h t

theorem alSet_alSet {α : Type} (k : String) (v w : α) :
    ∀ l : List (String × α), alSet k v (alSet k w l) = alSet k v l
  | [] => by rw [alSet_nil, alSet_cons, if_pos rfl, alSet_nil]
  | (k₀, v₀) :: t => by
    by_cases h₀ : k₀ = k
    · rw [alSet_cons, if_pos h₀, alSet_cons, if_pos rfl, alSet_cons, if_pos h₀]
    · rw [alSet_cons, if_neg h₀, alSet_cons, if_neg h₀, alSet_cons, if_neg h₀,
        alSet_alSet k v w t]

theorem alGet_mem {α : Type} (k : String) (v : α) :
    ∀ l : List (String × α), alGet k l = some v → (k, v) ∈ l
  | [] => by simp [alGet_nil]
  | (k₀, v₀) :: t => by
    intro h
    by_cases h₀ : k₀ = k
    · rw [alGet_cons, if_pos h₀] at h
      cases h
      exact h₀ ▸ List.mem_cons_self _ _
    · rw [alGet_cons, if_neg h₀] at h
      exact List.mem_cons_of_mem _ (alGet_mem k v t h)

theorem alGet_eq_none_of_not_mem {α : Type} (k : String) :
    ∀ l : List (String × α), k ∉ alKeys l → alGet k l = none
  | [] => fun _ => rfl
  | (k₀, v₀) :: t => by
    intro h
    rw [alKeys_cons, List.mem_cons] at h
    push_neg at h
    rw [alGet_cons, if_neg (fun hh => h.1 hh.symm)]
    exact alGet_eq_none_of_not_mem k t h.2

theorem mem_alKeys_of_alGet {α : Type} (k : String) (v : α) :
    ∀ l : List (String × α), alGet k l = some v → k ∈ alKeys l
  | [] => by simp [alGet_nil]
  | (k₀, v₀) :: t => by
    intro h
    rw [alKeys_cons, List.mem_cons]
    by_cases h₀ : k₀ = k
    · exact Or.inl h₀.symm
    · rw [alGet_cons, if_neg h₀] at h
      exact Or.inr (mem_alKeys_of_alGet k v t h)

theorem alKeys_alSet_of_mem {α : Type} (k : String) (v : α) :
    ∀ l : List (String × α), k ∈ alKeys l → alKeys (alSet k v l) = alKeys l
  | [] => by simp
  | (k₀, v₀) :: t => by
    intro h
    by_cases h₀ : k₀ = k
    · rw [alSet_cons, if_pos h₀, alKeys_cons, alKeys_cons, h₀]
    · rw [alKeys_cons, List.mem_cons] at h
      rcases h with h | h
      · exact absurd h.symm h₀
      · rw [alSet_cons, if_neg h₀, alKeys_cons, alKeys_cons,
          alKeys_alSet_of_mem k v t h]

theorem mem_alKeys_alSet_self {α : Type} (k : String) (v : α) :
    ∀ l : List (String × α), k ∈ alKeys (alSet k v l)
  | [] => by rw [alSet_nil, alKeys_cons]; exact List.mem_cons_self _ _
  | (k₀, v₀) :: t => by
    by_cases h₀ : k₀ = k
    · rw [alSet_cons, if_pos h₀, alKeys_cons]
      exact List.mem_cons_self _ _
    · rw [alSet_cons, if_neg h₀, alKeys_cons]
      exact List.mem_cons_of_mem _ (mem_alKeys_alSet_self k v t)

theorem mem_alKeys_alSet_of_mem {α : Type} (k k' : String) (v : α) :
    ∀ l : List (String × α), k' ∈ alKeys l → k' ∈ alKeys (alSet k v l)
  | [] => by simp
  | (k₀, v₀) :: t => by
    intro h
    rw [alKeys_cons, List.mem_cons] at h
    by_cases h₀ : k₀ = k
    · rw [alSet_cons, if_pos h₀, alKeys_cons, List.mem_cons]
      rcases h with h | h
      · exact Or.inl (h.trans h₀)
      · exact Or.inr h
    · rw [alSet_cons, if_neg h₀, alKeys_cons, List.mem_cons]
      rcases h with h | h
      · exact Or.inl h
      · exact Or.inr (mem_alKeys_alSet_of_mem k k' v t h)

theorem mem_alSet {α : Type} (k : String) (v : α) (e : String × α) :
    ∀ l : List (String × α), e ∈ alSet k v l → e = (k, v) ∨ e ∈ l
  | [] => by
    intro h
    rw [alSet_nil, List.mem_singleton] at h
    exact Or.inl h
  | (k₀, v₀) :: t => by
    intro h
    by_cases h₀ : k₀ = k
    · rw [alSet_cons, if_pos h₀, List.mem_cons] at h
      rcases h with h | h
      · exact Or.inl h
      · exact Or.inr (List.mem_cons_of_mem _ h)
    · rw [alSet_cons, if_neg h₀, List.mem_cons] at h
      rcases h with h | h
      · exact Or.inr (by rw [h]; exact List.mem_cons_self _ _)
      · rcases mem_alSet k v e t h with h' | h'
        · exact Or.inl h'
        · exact Or.inr (List.mem_cons_of_mem _ h')

theorem not_mem_alKeys_alRemove {α : Type} (k : String) (l : List (String × α)) :
    k ∉ alKeys (alRemove k l) := by
  intro h
  simp only [alKeys, alRemove, List.mem_map, List.mem_filter] at h
  rcases h with ⟨p, ⟨_, hp⟩, hk⟩
  rw [decide_eq_true_eq] at hp
  exact hp hk

theorem alGet_alRemove_self {α : Type} (k : String) (l : List (String × α)) :
    alGet k (alRemove k l) = none :=
  alGet_eq_none_of_not_mem k _ (not_mem_alKeys_alRemove k l)

/-! ## Lemmas about extraction, the registry scan and version comparison -/

/-- Lookup after `extractall`: a path named by some archive entry holds the
last such entry's bytes; any other path is untouched. -/
theorem alGet_writeEntries (p : String) :
    ∀ (es : List ZipEntry) (d : Dir),
      alGet p (writeEntries d es) =
        match lastEntryNamed p es with
        | some dat => some (.entry dat)
        | none => alGet p d
  | [], d => by rw [writeEntries, lastEntryNamed]
  | e :: rest, d => by
    rw [writeEntries, lastEntryNamed, alGet_writeEntries p rest]
    cases hrest : lastEntryNamed p rest with
    | some dat => rfl
    | none =>
      by_cases hn : e.name = p
      · rw [if_pos hn, hn]
        exact alGet_alSet_self p _ d
      · rw [if_neg hn]
        exact alGet_alSet_ne e.name p _ (fun hh => hn hh.symm) d

theorem mem_alKeys_writeEntries_of_mem (k : String) :
    ∀ (es : List ZipEntry) (d : Dir), k ∈ alKeys d → k ∈ alKeys (writeEntries d es)
  | [], _ => fun h => h
  | e :: rest, d => fun h =>
    mem_alKeys_writeEntries_of_mem k rest _ (mem_alKeys_alSet_of_mem e.name k _ d h)

theorem name_mem_alKeys_writeEntries (e : ZipEntry) :
    ∀ (es : List ZipEntry) (d : Dir), e ∈ es → e.name ∈ alKeys (writeEntries d es)
  | [], _ => by simp
  | e' :: rest, d => by
    intro h
    rcases List.mem_cons.mp h with h | h
    · subst h
      rw [writeEntries]
      exact mem_alKeys_writeEntries_of_mem e.name rest _ (mem_alKeys_alSet_self e.name _ d)
    · rw [writeEntries]
      exact name_mem_alKeys_writeEntries e rest _ h

theorem alKeys_writeEntries_of_names_mem :
    ∀ (es : List ZipEntry) (d : Dir), (∀ e ∈ es, e.name ∈ alKeys d) →
      alKeys (writeEntries d es) = alKeys d
  | [], d => fun _ => rfl
  | e :: rest, d => by
    intro h
    rw [writeEntries,
      alKeys_writeEntries_of_names_mem rest _
        (fun e' he' => mem_alKeys_alSet_of_mem e.name e'.name _ d (h e' (List.mem_cons_of_mem _ he'))),
      alKeys_alSet_of_mem e.name _ d (h e (List.mem_cons_self _ _))]

/-- Every entry the registry scan returns carries `uninstallable = true`
(the scan passes the constant `uninstallable=True`). -/
theorem installedScan_flag :
    ∀ (s : LibState) (acc m : List (String × InstalledLibraryInfo)),
      (∀ e ∈ acc, e.2.uninstallable = true) →
      installedScan acc s = .ok m → ∀ e ∈ m, e.2.uninstallable = true
  | [], acc, m => by
    intro hacc h
    rw [installedScan] at h
    cases h
    exact hacc
  | (uuid, d) :: rest, acc, m => by
    intro hacc h
    rw [installedScan] at h
    cases hd : alGet INFO_FILE d with
    | none => rw [hd] at h; cases h
    | some c =>
      cases c with
      | metaJson info =>
        rw [hd] at h
        refine installedScan_flag rest _ m (fun e he => ?_) h
        rcases mem_alSet uuid ⟨info, true⟩ e acc he with h' | h'
        · rw [h']
        · exact hacc e h'
      | entry e => rw [hd] at h; cases h

/-- A uuid neither in the accumulator nor among the scanned directory
names is absent from the scan's result. -/
theorem installedScan_absent (k : String) :
    ∀ (s : LibState) (acc m : List (String × InstalledLibraryInfo)),
      alGet k acc = none → k ∉ alKeys s →
      installedScan acc s = .ok m → alGet k m = none
  | [], acc, m => by
    intro hacc _ h
    rw [installedScan] at h
    cases h
    exact hacc
  | (uuid, d) :: rest, acc, m => by
    intro hacc hk h
    rw [alKeys_cons, List.mem_cons] at hk
    push_neg at hk
    rw [installedScan] at h
    cases hd : alGet INFO_FILE d with
    | none => rw [hd] at h; cases h
    | some c =>
      cases c with
      | metaJson info =>
        rw [hd] at h
        refine installedScan_absent k rest _ m ?_ hk.2 h
        rw [alGet_alSet_ne uuid k _ hk.1 acc]
        exact hacc
      | entry e => rw [hd] at h; cases h

/-- A strictly greater `(major, minor, patch)` triple makes
`Version.compare` return `1`, whatever the prerelease and build parts. -/
theorem Version.compare_eq_one_of_core_gt (v w : Version)
    (h : w.major < v.major ∨ (v.major = w.major ∧ w.minor < v.minor) ∨
      (v.major = w.major ∧ v.minor = w.minor ∧ w.patch < v.patch)) :
    Version.compare v w = 1 := by
  rcases h with h | ⟨h1, h2⟩ | ⟨h1, h2, h3⟩
  · rw [Version.compare]
    have hc : cmpNat v.major w.major = 1 := by
      rw [cmpNat, if_neg (by omega), if_pos h]
    simp [hc]
  · rw [Version.compare]
    have hc : cmpNat v.major w.major = 0 := by
      rw [cmpNat, if_neg (by omega), if_neg (by omega)]
    have hc2 : cmpNat v.minor w.minor = 1 := by
      rw [cmpNat, if_neg (by omega), if_pos h2]
    simp [hc, hc2]
  · rw [Version.compare]
    have hc : cmpNat v.major w.major = 0 := by
      rw [cmpNat, if_neg (by omega), if_neg (by omega)]
    have hc2 : cmpNat v.minor w.minor = 0 := by
      rw [cmpNat, if_neg (by omega), if_neg (by omega)]
    have hc3 : cmpNat v.patch w.patch = 1 := by
      rw [cmpNat, if_neg (by omega), if_pos h3]
    simp [hc, hc2, hc3]

/-! ## Shape of `install_library` results -/

/-- On a successful catalog lookup and a failed validation, the install
call returns that error with the state where the package directory exists
and holds the freshly dumped `metas.json`. -/
theorem install_error_intro (mgr : LibraryManager) (catalog : List DownloadableLibraryInfo)
    (s : LibState) (library_id : String) (file : ArchiveFile)
    (info : DownloadableLibraryInfo) (e : Failure)
    (hf : catalog.find? (fun d => d.uuid = library_id) = some info)
    (hv : validate_vvlib mgr library_id file = .error e) :
    install_library mgr catalog s library_id file
      = (.error e,
         alSet library_id (alSet INFO_FILE (.metaJson info) ((alGet library_id s).getD [])) s) := by
  rw [install_library, hf, hv]

/-- On a successful catalog lookup and successful validation, the install
call extracts every entry on top of the metadata-bearing directory. -/
theorem install_ok_intro (mgr : LibraryManager) (catalog : List DownloadableLibraryInfo)
    (s : LibState) (library_id : String) (file : ArchiveFile)
    (info : DownloadableLibraryInfo) (m : ManifestJson)
    (hf : catalog.find? (fun d => d.uuid = library_id) = some info)
    (hv : validate_vvlib mgr library_id file = .ok m) :
    install_library mgr catalog s library_id file
      = (.ok library_id,
         alSet library_id
           (writeEntries (alSet INFO_FILE (.metaJson info) ((alGet library_id s).getD []))
             file.entries)
           (alSet library_id (alSet INFO_FILE (.metaJson info) ((alGet library_id s).getD [])) s)) := by
  rw [install_library, hf, hv]

/-- Converse of `install_error_intro`: any error outcome after a
successful lookup leaves exactly the metadata-written state. -/
theorem install_error_elim (mgr : LibraryManager) (catalog : List DownloadableLibraryInfo)
    (s : LibState) (library_id : String) (file : ArchiveFile)
    (info : DownloadableLibraryInfo) (e : Failure) (s' : LibState)
    (hf : catalog.find? (fun d => d.uuid = library_id) = some info)
    (h : install_library mgr catalog s library_id file = (.error e, s')) :
    s' = alSet library_id (alSet INFO_FILE (.metaJson info) ((alGet library_id s).getD [])) s := by
  cases hv : validate_vvlib mgr library_id file with
  | error e' =>
    rw [install_error_intro mgr catalog s library_id file info e' hf hv] at h
    rw [Prod.mk.injEq] at h
    exact h.2.symm
  | ok m =>
    rw [install_ok_intro mgr catalog s library_id file info m hf hv] at h
    rw [Prod.mk.injEq] at h
    exact absurd h.1 (by simp)

/-- Converse of `install_ok_intro`: a successful install implies the
lookup and the validation succeeded, and pins the result. -/
theorem install_ok_elim (mgr : LibraryManager) (catalog : List DownloadableLibraryInfo)
    (s : LibState) (library_id : String) (file : ArchiveFile) (p : String) (s₁ : LibState)
    (h : install_library mgr catalog s library_id file = (.ok p, s₁)) :
    ∃ info m, catalog.find? (fun d => d.uuid = library_id) = some info ∧
      validate_vvlib mgr library_id file = .ok m ∧ p = library_id ∧
      s₁ = alSet library_id
        (writeEntries (alSet INFO_FILE (.metaJson info) ((alGet library_id s).getD []))
          file.entries)
        (alSet library_id (alSet INFO_FILE (.metaJson info) ((alGet library_id s).getD [])) s) := by
  cases hf : catalog.find? (fun d => d.uuid = library_id) with
  | none =>
    rw [install_library, hf] at h
    rw [Prod.mk.injEq] at h
    exact absurd h.1 (by simp)
  | some info =>
    cases hv : validate_vvlib mgr library_id file with
    | error e =>
      rw [install_error_intro mgr catalog s library_id file info e hf hv] at h
      rw [Prod.mk.injEq] at h
      exact absurd h.1 (by simp)
    | ok m =>
      rw [install_ok_intro mgr catalog s library_id file info m hf hv] at h
      rw [Prod.mk.injEq] at h
      obtain ⟨h1, h2⟩ := h
      rw [Except.ok.injEq] at h1
      exact ⟨info, m, rfl, rfl, h1.symm, h2.symm⟩

/-! ## Demonstration constants (concrete inputs used by witnesses) -/

/-- A concrete catalog descriptor. -/
def demoInfo : DownloadableLibraryInfo := ⟨"lib-1", "descriptor-fields"⟩

/-- A one-descriptor catalog. -/
def demoCatalog : List DownloadableLibraryInfo := [demoInfo]

/-- A manager whose supported manifest version is `1.0.0`. -/
def demoMgr1 : LibraryManager := ⟨⟨1, 0, 0, none, none⟩, "BRAND", "ENGINE", "engine-uuid-1"⟩

/-! ## The claims -/

/-- Claim C1: when an install call fails at any step after the catalog
lookup, no archive entry has been extracted into the package directory
(every path other than `metas.json` is exactly as before the call), while
the metadata document written at step 3 is present; extraction happens
only after every validation has succeeded. -/
theorem claim_C1_failure_leaves_metadata_only (mgr : LibraryManager)
    (catalog : List DownloadableLibraryInfo) (s : LibState) (library_id : String)
    (file : ArchiveFile) (info : DownloadableLibraryInfo) (e : Failure) (s' : LibState)
    (hf : catalog.find? (fun d => d.uuid = library_id) = some info)
    (h : install_library mgr catalog s library_id file = (.error e, s')) :
    stateGet s' library_id INFO_FILE = some (.metaJson info) ∧
    (∀ p, p ≠ INFO_FILE → stateGet s' library_id p = stateGet s library_id p) ∧
    (∀ u, u ≠ library_id → alGet u s' = alGet u s) := by
  have hs' := install_error_elim mgr catalog s library_id file info e s' hf h
  subst hs'
  refine ⟨?_, ?_, ?_⟩
  · rw [stateGet, alGet_alSet_self]
    rw [Option.some_bind, alGet_alSet_self]
  · intro p hp
    rw [stateGet, alGet_alSet_self, Option.some_bind,
      alGet_alSet_ne INFO_FILE p _ hp]
    cases hls : alGet library_id s with
    | none => rw [stateGet, hls, Option.none_bind, Option.getD_none, alGet_nil]
    | some d => rw [stateGet, hls, Option.some_bind, Option.getD_some]
  · intro u hu
    exact alGet_alSet_ne library_id u _ hu s

/-- Claim C1 witness: a failing archive (not a zip) against a catalog that
does list the package, evaluated at a concrete prior state. -/
theorem claim_C1_failure_leaves_metadata_only_witness :
    stateGet
        (install_library demoMgr1 demoCatalog [("lib-1", [("old.bin", .entry (.undecodable "old"))])]
          "lib-1" ⟨false, none, []⟩).2
        "lib-1" INFO_FILE = some (.metaJson demoInfo) ∧
      (∀ p, p ≠ INFO_FILE →
        stateGet
          (install_library demoMgr1 demoCatalog [("lib-1", [("old.bin", .entry (.undecodable "old"))])]
            "lib-1" ⟨false, none, []⟩).2 "lib-1" p
          = stateGet [("lib-1", [("old.bin", .entry (.undecodable "old"))])] "lib-1" p) ∧
      (∀ u, u ≠ "lib-1" →
        alGet u
          (install_library demoMgr1 demoCatalog [("lib-1", [("old.bin", .entry (.undecodable "old"))])]
            "lib-1" ⟨false, none, []⟩).2
          = alGet u [("lib-1", [("old.bin", .entry (.undecodable "old"))])]) :=
  claim_C1_failure_leaves_metadata_only demoMgr1 demoCatalog
    [("lib-1", [("old.bin", .entry (.undecodable "old"))])] "lib-1" ⟨false, none, []⟩
    demoInfo (.httpError 422 (msgBadFile "lib-1")) _ rfl rfl

/-- Claim C3: for every configured maximum manifest version and every
archive whose manifest reaches the manifest-version gate with a parsed
`manifest_version` whose `(major, minor, patch)` triple is strictly
greater than the maximum's (lexicographically, each component compared
numerically), install returns 422 with the unsupported-library detail. -/
theorem claim_C3_newer_manifest_version_rejected (mgr : LibraryManager)
    (catalog : List DownloadableLibraryInfo) (s : LibState) (library_id : String)
    (file : ArchiveFile) (info : DownloadableLibraryInfo) (m : ManifestJson) (v : Version)
    (hf : catalog.find? (fun d => d.uuid = library_id) = some info)
    (hz : file.is_zipfile = true) (ht : file.testzip = none)
    (hm : lastEntryNamed MANIFEST_FILE file.entries = some (.json m))
    (hsch : m.schema_ok = true)
    (hvv : Version.is_valid m.version = true)
    (hp : Version.parse m.manifest_version = some v)
    (hgt : mgr.supported_vvlib_version.major < v.major ∨
      (v.major = mgr.supported_vvlib_version.major ∧
        mgr.supported_vvlib_version.minor < v.minor) ∨
      (v.major = mgr.supported_vvlib_version.major ∧
        v.minor = mgr.supported_vvlib_version.minor ∧
        mgr.supported_vvlib_version.patch < v.patch)) :
    (install_library mgr catalog s library_id file).1
      = .error (.httpError 422 (msgUnsupported library_id)) := by
  have hgate : 0 < Version.compare v mgr.supported_vvlib_version := by
    rw [Version.compare_eq_one_of_core_gt v mgr.supported_vvlib_version hgt]
    norm_num
  have hv : validate_vvlib mgr library_id file
      = .error (.httpError 422 (msgUnsupported library_id)) := by
    simp [validate_vvlib, hz, ht, hm, hsch, hvv, hp, hgate]
  rw [install_error_intro mgr catalog s library_id file info _ hf hv]

/-- Claim C3 witness: configured maximum `1.0.0`, manifest_version
`2.0.0`, every other field well-formed. -/
theorem claim_C3_newer_manifest_version_rejected_witness :
    (install_library demoMgr1 demoCatalog [] "lib-1"
        ⟨true, none,
          [⟨MANIFEST_FILE, .json ⟨true, "1.0.0", "2.0.0", "engine-uuid-1"⟩⟩]⟩).1
      = .error (.httpError 422 (msgUnsupported "lib-1")) :=
  claim_C3_newer_manifest_version_rejected demoMgr1 demoCatalog [] "lib-1"
    ⟨true, none, [⟨MANIFEST_FILE, .json ⟨true, "1.0.0", "2.0.0", "engine-uuid-1"⟩⟩]⟩
    demoInfo ⟨true, "1.0.0", "2.0.0", "engine-uuid-1"⟩ ⟨2, 0, 0, none, none⟩
    rfl rfl rfl (by decide) rfl (by decide) (by decide) (by decide)

/-- Claim C4: an archive whose manifest passes the schema and version
checks but whose `engine_uuid` differs from the host's configured uuid is
rejected with 422, whatever the `version` and `manifest_version` values
(they are quantified here, constrained only by the checks the manifest
passed). -/
theorem claim_C4_engine_mismatch_rejected (mgr : LibraryManager)
    (catalog : List DownloadableLibraryInfo) (s : LibState) (library_id : String)
    (file : ArchiveFile) (info : DownloadableLibraryInfo) (m : ManifestJson) (v : Version)
    (hf : catalog.find? (fun d => d.uuid = library_id) = some info)
    (hz : file.is_zipfile = true) (ht : file.testzip = none)
    (hm : lastEntryNamed MANIFEST_FILE file.entries = some (.json m))
    (hsch : m.schema_ok = true)
    (hvv : Version.is_valid m.version = true)
    (hp : Version.parse m.manifest_version = some v)
    (hle : ¬ 0 < Version.compare v mgr.supported_vvlib_version)
    (hne : m.engine_uuid ≠ mgr.engine_uuid) :
    (install_library mgr catalog s library_id file).1
      = .error (.httpError 422 (msgEngineMismatch library_id mgr.engine_name)) := by
  have hv : validate_vvlib mgr library_id file
      = .error (.httpError 422 (msgEngineMismatch library_id mgr.engine_name)) := by
    simp [validate_vvlib, hz, ht, hm, hsch, hvv, hp, hle, hne]
  rw [install_error_intro mgr catalog s library_id file info _ hf hv]

/-- Claim C4 witness: supported version `1.0.0`, manifest versions
compatible, `engine_uuid` different from the host's. -/
theorem claim_C4_engine_mismatch_rejected_witness :
    (install_library demoMgr1 demoCatalog [] "lib-1"
        ⟨true, none,
          [⟨MANIFEST_FILE, .json ⟨true, "1.0.0", "1.0.0", "other-engine"⟩⟩]⟩).1
      = .error (.httpError 422 (msgEngineMismatch "lib-1" demoMgr1.engine_name)) :=
  claim_C4_engine_mismatch_rejected demoMgr1 demoCatalog [] "lib-1"
    ⟨true, none, [⟨MANIFEST_FILE, .json ⟨true, "1.0.0", "1.0.0", "other-engine"⟩⟩]⟩
    demoInfo ⟨true, "1.0.0", "1.0.0", "other-engine"⟩ ⟨1, 0, 0, none, none⟩
    rfl rfl rfl (by decide) rfl (by decide) (by decide) (by decide) (by decide)

/-- Claim C5: a `library_id` matching no catalog descriptor makes install
return 404 with the not-found detail and leave the state untouched — no
package directory and no metadata document is created. -/
theorem claim_C5_not_in_catalog_404 (mgr : LibraryManager)
    (catalog : List DownloadableLibraryInfo) (s : LibState) (library_id : String)
    (file : ArchiveFile)
    (h : ∀ d ∈ catalog, d.uuid ≠ library_id) :
    install_library mgr catalog s library_id file
      = (.error (.httpError 404 (msgNotFound library_id)), s) := by
  have hf : catalog.find? (fun d => d.uuid = library_id) = none := by
    rw [List.find?_eq_none]
    intro d hd
    simp [h d hd]
  rw [install_library, hf]

/-- Claim C5 witness: an id absent from the demo catalog, with an archive
that would otherwise install fine. -/
theorem claim_C5_not_in_catalog_404_witness :
    install_library demoMgr1 demoCatalog [] "absent-id"
        ⟨true, none, [⟨MANIFEST_FILE, .json ⟨true, "1.0.0", "1.0.0", "engine-uuid-1"⟩⟩]⟩
      = (.error (.httpError 404 (msgNotFound "absent-id")), []) :=
  claim_C5_not_in_catalog_404 demoMgr1 demoCatalog [] "absent-id"
    ⟨true, none, [⟨MANIFEST_FILE, .json ⟨true, "1.0.0", "1.0.0", "engine-uuid-1"⟩⟩]⟩
    (by decide)

/-- Claim C2 counterexample: with no configured supported manifest
version (treated as `0.0.0`), a manifest whose `manifest_version` is
`0.0.0-rc.1` — a valid semver string different from `0.0.0` — reaches the
manifest-version gate and is NOT rejected: the whole install succeeds,
because a prerelease of `0.0.0` compares below `0.0.0`. -/
theorem claim_C2_counterexample :
    mkLibraryManager none "BRAND" "ENGINE" "engine-uuid-1"
        = some ⟨⟨0, 0, 0, none, none⟩, "BRAND", "ENGINE", "engine-uuid-1"⟩ ∧
    ("0.0.0-rc.1" : String) ≠ "0.0.0" ∧
    Version.parse "0.0.0-rc.1" = some ⟨0, 0, 0, some "rc.1", none⟩ ∧
    (install_library ⟨⟨0, 0, 0, none, none⟩, "BRAND", "ENGINE", "engine-uuid-1"⟩
        [⟨"lib-1", "descriptor-fields"⟩] [] "lib-1"
        ⟨true, none,
          [⟨MANIFEST_FILE, .json ⟨true, "1.0.0", "0.0.0-rc.1", "engine-uuid-1"⟩⟩]⟩).1
      = .ok "lib-1" :=
  ⟨rfl, by decide, by decide, rfl⟩

/-- Claim C2 (amended): when the supported manifest version is not
configured, the constructor stores `0.0.0`, and a manifest that reaches
the manifest-version gate is rejected as Invalid (422, unsupported) iff
its parsed `manifest_version` compares semver-greater than `0.0.0`;
`0.0.0` itself and prereleases of `0.0.0` (e.g. `0.0.0-rc.1`) pass the
gate, after which only the engine-uuid check decides the outcome. -/
theorem claim_C2_amended_unconfigured_gate (b en eu : String) (mgr : LibraryManager)
    (catalog : List DownloadableLibraryInfo) (s : LibState) (library_id : String)
    (file : ArchiveFile) (info : DownloadableLibraryInfo) (m : ManifestJson) (v : Version)
    (hmk : mkLibraryManager none b en eu = some mgr)
    (hf : catalog.find? (fun d => d.uuid = library_id) = some info)
    (hz : file.is_zipfile = true) (ht : file.testzip = none)
    (hm : lastEntryNamed MANIFEST_FILE file.entries = some (.json m))
    (hsch : m.schema_ok = true)
    (hvv : Version.is_valid m.version = true)
    (hp : Version.parse m.manifest_version = some v) :
    mgr.supported_vvlib_version = ⟨0, 0, 0, none, none⟩ ∧
    (0 < Version.compare v ⟨0, 0, 0, none, none⟩ →
      (install_library mgr catalog s library_id file).1
        = .error (.httpError 422 (msgUnsupported library_id))) ∧
    (¬ 0 < Version.compare v ⟨0, 0, 0, none, none⟩ →
      (m.engine_uuid = mgr.engine_uuid →
        (install_library mgr catalog s library_id file).1 = .ok library_id) ∧
      (m.engine_uuid ≠ mgr.engine_uuid →
        (install_library mgr catalog s library_id file).1
          = .error (.httpError 422 (msgEngineMismatch library_id mgr.engine_name)))) := by
  rw [mkLibraryManager, Option.some.injEq] at hmk
  subst hmk
  refine ⟨rfl, ?_, ?_⟩
  · intro hgate
    have hv : validate_vvlib ⟨⟨0, 0, 0, none, none⟩, b, en, eu⟩ library_id file
        = .error (.httpError 422 (msgUnsupported library_id)) := by
      simp [validate_vvlib, hz, ht, hm, hsch, hvv, hp, hgate]
    rw [install_error_intro _ catalog s library_id file info _ hf hv]
  · intro hgate
    constructor
    · intro heq
      have hv : validate_vvlib ⟨⟨0, 0, 0, none, none⟩, b, en, eu⟩ library_id file = .ok m := by
        simp [validate_vvlib, hz, ht, hm, hsch, hvv, hp, hgate, heq]
      rw [install_ok_intro _ catalog s library_id file info _ hf hv]
    · intro hne
      have hv : validate_vvlib ⟨⟨0, 0, 0, none, none⟩, b, en, eu⟩ library_id file
          = .error (.httpError 422 (msgEngineMismatch library_id en)) := by
        simp [validate_vvlib, hz, ht, hm, hsch, hvv, hp, hgate, hne]
      rw [install_error_intro _ catalog s library_id file info _ hf hv]

/-- Claim C2 amended witness: unconfigured manager, manifest_version
`1.0.0` (greater than `0.0.0`) rejected as unsupported. -/
theorem claim_C2_amended_unconfigured_gate_witness :
    (install_library ⟨⟨0, 0, 0, none, none⟩, "BRAND", "ENGINE", "engine-uuid-1"⟩
        demoCatalog [] "lib-1"
        ⟨true, none,
          [⟨MANIFEST_FILE, .json ⟨true, "1.0.0", "1.0.0", "engine-uuid-1"⟩⟩]⟩).1
      = .error (.httpError 422 (msgUnsupported "lib-1")) :=
  (claim_C2_amended_unconfigured_gate "BRAND" "ENGINE" "engine-uuid-1"
    ⟨⟨0, 0, 0, none, none⟩, "BRAND", "ENGINE", "engine-uuid-1"⟩
    demoCatalog [] "lib-1"
    ⟨true, none, [⟨MANIFEST_FILE, .json ⟨true, "1.0.0", "1.0.0", "engine-uuid-1"⟩⟩]⟩
    demoInfo ⟨true, "1.0.0", "1.0.0", "engine-uuid-1"⟩ ⟨1, 0, 0, none, none⟩
    rfl rfl rfl rfl (by decide) rfl (by decide) (by decide)).2.1 (by decide)

/-- Claim C6 counterexample: a structurally malformed archive
(`is_zipfile` false) and a structurally well-formed archive failing the
CRC self-test (`testzip` names a bad entry) are rejected with the SAME
status code and the SAME detail string — the resulting failure values are
equal, so a caller cannot tell which of the two checks failed. -/
theorem claim_C6_counterexample :
    (install_library demoMgr1 demoCatalog [] "lib-1" ⟨false, none, []⟩).1
        = .error (.httpError 422 (msgBadFile "lib-1")) ∧
    (install_library demoMgr1 demoCatalog [] "lib-1"
          ⟨true, some "entry-0", [⟨"entry-0", .undecodable "bytes"⟩]⟩).1
        = .error (.httpError 422 (msgBadFile "lib-1")) ∧
    (install_library demoMgr1 demoCatalog [] "lib-1" ⟨false, none, []⟩).1
        = (install_library demoMgr1 demoCatalog [] "lib-1"
            ⟨true, some "entry-0", [⟨"entry-0", .undecodable "bytes"⟩]⟩).1 :=
  ⟨rfl, rfl, rfl⟩

/-- Claim C6 (amended): a structurally malformed archive and an archive
failing the internal checksum self-test are both reported as 422 with the
identical reason string (`msgBadFile`), which names the package id but
not the failed check; the two failures are indistinguishable to the
caller. -/
theorem claim_C6_amended_same_error (mgr : LibraryManager)
    (catalog : List DownloadableLibraryInfo) (s : LibState) (library_id : String)
    (file : ArchiveFile) (info : DownloadableLibraryInfo)
    (hf : catalog.find? (fun d => d.uuid = library_id) = some info)
    (hbad : file.is_zipfile = false ∨ file.testzip.isSome = true) :
    (install_library mgr catalog s library_id file).1
      = .error (.httpError 422 (msgBadFile library_id)) := by
  have hv : validate_vvlib mgr library_id file
      = .error (.httpError 422 (msgBadFile library_id)) := by
    rcases hbad with hb | hb
    · rw [validate_vvlib, hb]
      rfl
    · cases hz : file.is_zipfile with
      | false =>
        rw [validate_vvlib, hz]
        rfl
      | true =>
        rw [validate_vvlib, hz, hb]
        rfl
  rw [install_error_intro mgr catalog s library_id file info _ hf hv]

/-- Claim C6 amended witness: a CRC-failing archive produces exactly the
`msgBadFile` 422. -/
theorem claim_C6_amended_same_error_witness :
    (install_library demoMgr1 demoCatalog [] "lib-1"
        ⟨true, some "entry-0", [⟨"entry-0", .undecodable "bytes"⟩]⟩).1
      = .error (.httpError 422 (msgBadFile "lib-1")) :=
  claim_C6_amended_same_error demoMgr1 demoCatalog [] "lib-1"
    ⟨true, some "entry-0", [⟨"entry-0", .undecodable "bytes"⟩]⟩ demoInfo rfl (Or.inr rfl)

/-! ## Shape of `uninstall_library` results -/

theorem uninstall_library_ok_listing (s : LibState) (lid : String)
    (m : List (String × InstalledLibraryInfo))
    (hl : installed_libraries s = .ok m) :
    uninstall_library s lid = uninstall_given s lid m := by
  rw [uninstall_library, hl]

theorem uninstall_library_err_listing (s : LibState) (lid u : String)
    (hl : installed_libraries s = .error u) :
    uninstall_library s lid = (.error (.readFailure u), s) := by
  rw [uninstall_library, hl]

theorem uninstall_given_absent (s : LibState) (lid : String)
    (m : List (String × InstalledLibraryInfo)) (hg : alGet lid m = none) :
    uninstall_given s lid m = (.error (.httpError 404 (msgNotInstalled lid)), s) := by
  rw [uninstall_given.eq_def, hg]

theorem uninstall_given_present (s : LibState) (lid : String)
    (m : List (String × InstalledLibraryInfo)) (entry : InstalledLibraryInfo)
    (hg : alGet lid m = some entry) :
    uninstall_given s lid m
      = if !entry.uninstallable then (.error (.httpError 403 (msgNotRemovable lid)), s)
        else if (alGet lid s).isSome then (.ok (), alRemove lid s)
        else (.error (.httpError 500 (msgDeleteFailed lid)), s) := by
  rw [uninstall_given.eq_def, hg]

/-- Auxiliary for C8: if some scanned directory has no readable metadata
document, the scan aborts with an error whatever the accumulator. -/
theorem installedScan_error_of_bad (uuid : String) (d : Dir)
    (hbad : ∀ info, alGet INFO_FILE d ≠ some (.metaJson info)) :
    ∀ (s : LibState) (acc : List (String × InstalledLibraryInfo)),
      (uuid, d) ∈ s → ∃ bad, installedScan acc s = .error bad
  | [], _ => by simp
  | (u₀, d₀) :: rest, acc => by
    intro hmem
    rw [installedScan]
    cases hd : alGet INFO_FILE d₀ with
    | none => exact ⟨u₀, rfl⟩
    | some c =>
      cases c with
      | metaJson info =>
        rcases List.mem_cons.mp hmem with h | h
        · injection h with h1 h2
          subst h1
          subst h2
          exact absurd hd (hbad info)
        · exact installedScan_error_of_bad uuid d hbad rest _ h
      | entry e => exact ⟨u₀, rfl⟩

/-- Claim C8: a state in which some immediate subdirectory has no readable
metadata document makes the registry listing raise a read error — it never
returns a mapping (which would have to omit or misreport that
subdirectory). -/
theorem claim_C8_unreadable_metadata_raises (s : LibState) (uuid : String) (d : Dir)
    (hmem : (uuid, d) ∈ s)
    (hbad : ∀ info, alGet INFO_FILE d ≠ some (.metaJson info)) :
    ∃ bad, installed_libraries s = .error bad := by
  rw [installed_libraries]
  exact installedScan_error_of_bad uuid d hbad s [] hmem

/-- Claim C8 witness: a one-directory state whose directory lacks
`metas.json` entirely. -/
theorem claim_C8_unreadable_metadata_raises_witness :
    ∃ bad, installed_libraries [("u-1", [("model.bin", .entry (.undecodable "b"))])]
      = .error bad :=
  claim_C8_unreadable_metadata_raises
    [("u-1", [("model.bin", .entry (.undecodable "b"))])] "u-1"
    [("model.bin", .entry (.undecodable "b"))]
    (List.mem_singleton.mpr rfl) (fun _ h => Option.noConfusion h)

/-- Claim C10: the registry listing marks every entry it returns as
`uninstallable = true`, and consequently `uninstall_library` can never
fail with the 403 not-removable outcome — that branch is unreachable. -/
theorem claim_C10_forbidden_unreachable (s : LibState) (library_id : String) :
    (∀ m, installed_libraries s = .ok m → ∀ e ∈ m, e.2.uninstallable = true) ∧
    (∀ st det, (uninstall_library s library_id).1 = .error (.httpError st det) →
      st ≠ 403) := by
  constructor
  · intro m hm e he
    exact installedScan_flag s [] m (by simp) hm e he
  · intro st det h
    cases hl : installed_libraries s with
    | error u =>
      rw [uninstall_library_err_listing s library_id u hl] at h
      simp at h
    | ok m =>
      rw [uninstall_library_ok_listing s library_id m hl] at h
      cases hg : alGet library_id m with
      | none =>
        rw [uninstall_given_absent s library_id m hg] at h
        simp at h
        omega
      | some entry =>
        have hflag : entry.uninstallable = true :=
          installedScan_flag s [] m (by simp) hl (library_id, entry) (alGet_mem _ _ _ hg)
        rw [uninstall_given_present s library_id m entry hg, hflag] at h
        simp only [Bool.not_true] at h
        rw [if_neg (by simp)] at h
        split at h
        · simp at h
        · simp at h
          omega

/-- Claim C10 witness: on a concrete one-package root, the concrete
listing entry carries `uninstallable = true`, and the concrete 404 error
of an uninstall of an absent id has a status different from 403. -/
theorem claim_C10_forbidden_unreachable_witness :
    ("u-1", (⟨demoInfo, true⟩ : InstalledLibraryInfo)).2.uninstallable = true ∧
    (404 : Nat) ≠ 403 :=
  ⟨(claim_C10_forbidden_unreachable [("u-1", [(INFO_FILE, .metaJson demoInfo)])] "u-1").1
      [("u-1", ⟨demoInfo, true⟩)] rfl ("u-1", ⟨demoInfo, true⟩) (List.mem_singleton.mpr rfl),
    (claim_C10_forbidden_unreachable [] "u-1").2 404 (msgNotInstalled "u-1") rfl⟩

/-- Claim C7: uninstall returns the 404 not-installed error exactly when
the registry listing taken at the start of the call succeeds and lacks the
id; a listed entry with `uninstallable = false` yields the 403 error with
the state untouched; and a successful uninstall removes the package
directory, after which a successful listing no longer contains the id. -/
theorem claim_C7_uninstall_spec (s : LibState) (library_id : String) :
    ((uninstall_library s library_id).1
        = .error (.httpError 404 (msgNotInstalled library_id)) ↔
      ∃ m, installed_libraries s = .ok m ∧ alGet library_id m = none) ∧
    (∀ m entry, alGet library_id m = some entry → entry.uninstallable = false →
      uninstall_given s library_id m
        = (.error (.httpError 403 (msgNotRemovable library_id)), s)) ∧
    (∀ s', uninstall_library s library_id = (.ok (), s') →
      alGet library_id s' = none ∧
      ∀ m', installed_libraries s' = .ok m' → alGet library_id m' = none) := by
  refine ⟨⟨?_, ?_⟩, ?_, ?_⟩
  · intro h
    cases hl : installed_libraries s with
    | error u =>
      rw [uninstall_library_err_listing s library_id u hl] at h
      simp at h
    | ok m =>
      refine ⟨m, rfl, ?_⟩
      rw [uninstall_library_ok_listing s library_id m hl] at h
      cases hg : alGet library_id m with
      | none => rfl
      | some entry =>
        rw [uninstall_given_present s library_id m entry hg] at h
        exfalso
        split at h
        · simp at h
        · split at h
          · simp at h
          · simp at h
  · rintro ⟨m, hl, hg⟩
    rw [uninstall_library_ok_listing s library_id m hl,
      uninstall_given_absent s library_id m hg]
  · intro m entry hg hflag
    rw [uninstall_given_present s library_id m entry hg, hflag]
    rfl
  · intro s' h
    cases hl : installed_libraries s with
    | error u =>
      rw [uninstall_library_err_listing s library_id u hl] at h
      simp at h
    | ok m =>
      rw [uninstall_library_ok_listing s library_id m hl] at h
      cases hg : alGet library_id m with
      | none =>
        rw [uninstall_given_absent s library_id m hg] at h
        simp at h
      | some entry =>
        rw [uninstall_given_present s library_id m entry hg] at h
        split at h
        · simp at h
        · split at h
          · rw [Prod.mk.injEq] at h
            obtain ⟨-, hs'⟩ := h
            subst hs'
            constructor
            · exact alGet_alRemove_self library_id s
            · intro m' hm'
              rw [installed_libraries] at hm'
              exact installedScan_absent library_id (alRemove library_id s) [] m' rfl
                (not_mem_alKeys_alRemove library_id s) hm'
          · simp at h

/-- Claim C7 witness: the 403 branch at a concrete listing with
`uninstallable = false`, and the 404 outcome for an id missing from a
concrete one-package registry. -/
theorem claim_C7_uninstall_spec_witness :
    uninstall_given [] "u-1" [("u-1", ⟨demoInfo, false⟩)]
        = (.error (.httpError 403 (msgNotRemovable "u-1")), []) ∧
    (uninstall_library [("u-1", [(INFO_FILE, .metaJson demoInfo)])] "u-2").1
        = .error (.httpError 404 (msgNotInstalled "u-2")) :=
  ⟨(claim_C7_uninstall_spec [] "u-1").2.1 [("u-1", ⟨demoInfo, false⟩)] ⟨demoInfo, false⟩
      rfl rfl,
    (claim_C7_uninstall_spec [("u-1", [(INFO_FILE, .metaJson demoInfo)])] "u-2").1.mpr
      ⟨[("u-1", ⟨demoInfo, true⟩)], rfl, rfl⟩⟩

theorem alGet_writeEntries_hit (p : String) (es : List ZipEntry) (d : Dir)
    (dat : EntryData) (h : lastEntryNamed p es = some dat) :
    alGet p (writeEntries d es) = some (.entry dat) := by
  rw [alGet_writeEntries p es d, h]

theorem alGet_writeEntries_miss (p : String) (es : List ZipEntry) (d : Dir)
    (h : lastEntryNamed p es = none) :
    alGet p (writeEntries d es) = alGet p d := by
  rw [alGet_writeEntries p es d, h]

/-- Claim C9: install is idempotent on the filesystem.  A second install
with the same id and archive from the state a successful install produced
succeeds again (in particular the directory-creation step raises no
error), and the final state equals the single-call state: the same
package-directory names in the same order (no duplicated entries), other
directories untouched, and the package directory itself with the same file
names and the same content at every path. -/
theorem claim_C9_install_idempotent (mgr : LibraryManager)
    (catalog : List DownloadableLibraryInfo) (s : LibState) (library_id : String)
    (file : ArchiveFile) (p : String) (s₁ : LibState)
    (h : install_library mgr catalog s library_id file = (.ok p, s₁)) :
    (install_library mgr catalog s₁ library_id file).1 = .ok p ∧
    alKeys (install_library mgr catalog s₁ library_id file).2 = alKeys s₁ ∧
    (∀ u, u ≠ library_id →
      alGet u (install_library mgr catalog s₁ library_id file).2 = alGet u s₁) ∧
    (∃ d₂ d₁,
      alGet library_id (install_library mgr catalog s₁ library_id file).2 = some d₂ ∧
      alGet library_id s₁ = some d₁ ∧
      alKeys d₂ = alKeys d₁ ∧
      ∀ q, alGet q d₂ = alGet q d₁) := by
  obtain ⟨info, m, hf, hv, hpeq, hs₁⟩ := install_ok_elim mgr catalog s library_id file p s₁ h
  rw [hpeq]
  rw [alSet_alSet] at hs₁
  have hgetW : alGet library_id s₁
      = some (writeEntries (alSet INFO_FILE (.metaJson info) ((alGet library_id s).getD []))
          file.entries) := by
    rw [hs₁]
    exact alGet_alSet_self _ _ s
  have hrun2 := install_ok_intro mgr catalog s₁ library_id file info m hf hv
  rw [hgetW] at hrun2
  simp only [Option.getD_some] at hrun2
  rw [alSet_alSet] at hrun2
  have hinfoW : INFO_FILE ∈ alKeys
      (writeEntries (alSet INFO_FILE (.metaJson info) ((alGet library_id s).getD []))
        file.entries) :=
    mem_alKeys_writeEntries_of_mem INFO_FILE file.entries _
      (mem_alKeys_alSet_self INFO_FILE _ _)
  have hnames : ∀ e ∈ file.entries, e.name ∈ alKeys
      (writeEntries (alSet INFO_FILE (.metaJson info) ((alGet library_id s).getD []))
        file.entries) :=
    fun e he => name_mem_alKeys_writeEntries e file.entries _ he
  refine ⟨?_, ?_, ?_, ?_⟩
  · rw [hrun2]
  · rw [hrun2]
    exact alKeys_alSet_of_mem library_id _ s₁ (mem_alKeys_of_alGet library_id _ s₁ hgetW)
  · intro u hu
    rw [hrun2]
    exact alGet_alSet_ne library_id u _ hu s₁
  · refine ⟨writeEntries (alSet INFO_FILE (.metaJson info)
        (writeEntries (alSet INFO_FILE (.metaJson info) ((alGet library_id s).getD []))
          file.entries)) file.entries,
      writeEntries (alSet INFO_FILE (.metaJson info) ((alGet library_id s).getD []))
        file.entries,
      ?_, hgetW, ?_, ?_⟩
    · rw [hrun2]
      exact alGet_alSet_self _ _ s₁
    · rw [alKeys_writeEntries_of_names_mem file.entries _
        (fun e he => mem_alKeys_alSet_of_mem INFO_FILE e.name _ _ (hnames e he)),
        alKeys_alSet_of_mem INFO_FILE _ _ hinfoW]
    · intro q
      cases hq : lastEntryNamed q file.entries with
      | some dat =>
        rw [alGet_writeEntries_hit q file.entries _ dat hq,
          alGet_writeEntries_hit q file.entries _ dat hq]
      | none =>
        rw [alGet_writeEntries_miss q file.entries _ hq]
        by_cases hqi : q = INFO_FILE
        · subst hqi
          rw [alGet_alSet_self, alGet_writeEntries_miss INFO_FILE file.entries _ hq,
            alGet_alSet_self]
        · rw [alGet_alSet_ne INFO_FILE q _ hqi]

/-- An archive the demo manager accepts: valid versions, matching engine
uuid, one payload entry. -/
def demoOkFile : ArchiveFile :=
  ⟨true, none,
    [⟨MANIFEST_FILE, .json ⟨true, "1.0.0", "1.0.0", "engine-uuid-1"⟩⟩,
      ⟨"model.bin", .undecodable "payload"⟩]⟩

/-- Claim C9 witness: the second install of the demo archive from the
state the first produced succeeds. -/
theorem claim_C9_install_idempotent_witness :
    (install_library demoMgr1 demoCatalog
        (install_library demoMgr1 demoCatalog [] "lib-1" demoOkFile).2
        "lib-1" demoOkFile).1 = .ok "lib-1" :=
  (claim_C9_install_idempotent demoMgr1 demoCatalog [] "lib-1" demoOkFile "lib-1"
    (install_library demoMgr1 demoCatalog [] "lib-1" demoOkFile).2 rfl).1

end LibraryManagerModel
